import Mathlib

/-!
Shallow embedding of the gym-lowcostrobot-leap repository:
`gym_lowcostrobot/envs/reach_cube_env.py`, `gym_lowcostrobot/envs/lift_cube_env.py`
and `examples/trace_hdf5_mujoco.py`.

Numbers computed by numpy in binary64 are modelled as exact real numbers.
Calls into third-party libraries are modelled as fields of an oracle structure
`Phys`: mujoco forward kinematics (`mj_forward` followed by reading
`data.xpos[joint_id]`), the positional jacobian `mj_jac`, and the
Moore-Penrose pseudoinverse `np.linalg.pinv`.  The call `np.linalg.inv`,
which computes the exact matrix inverse where it exists (and raises where it
does not), is modelled by the Mathlib matrix inverse.
-/

noncomputable section

/-- Points in cartesian space: numpy arrays of shape `(3,)`. -/
abbrev V3 : Type := Fin 3 → ℝ

/-- Arm joint vectors (`data.qpos[7:13]`): numpy arrays of shape `(6,)`. -/
abbrev V6 : Type := Fin 6 → ℝ

abbrev Mat36 : Type := Matrix (Fin 3) (Fin 6) ℝ

abbrev Mat63 : Type := Matrix (Fin 6) (Fin 3) ℝ

abbrev Mat66 : Type := Matrix (Fin 6) (Fin 6) ℝ

/-- The full positional jacobian `jac = np.zeros((3, model.nv))` with `nv = 12`
(6 dof of the free-floating cube plus 6 arm joints). -/
abbrev Mat312 : Type := Matrix (Fin 3) (Fin 12) ℝ

/-- Euclidean norm of a 3-vector, `np.linalg.norm`. -/
def enorm3 (v : V3) : ℝ := Real.sqrt (∑ i, v i ^ 2)

/-- Euclidean norm of a 6-vector, `np.linalg.norm`. -/
def enorm6 (v : V6) : ℝ := Real.sqrt (∑ i, v i ^ 2)

/-- Oracle bundling the third-party numerical routines used by
`LiftCubeEnv.inverse_kinematics`.  `fk q` is `data.xpos[joint_id]` after
`mujoco.mj_forward`, as a function of the arm joint positions
`data.qpos[7:13] = q` (the cube part of `qpos` is never written by the
routine, so it is a fixed parameter of the oracle).  `jacFull pt q` is the
3 x nv positional jacobian written by `mujoco.mj_jac(model, data, jac, None,
pt, joint_id)` at that same state.  `pinv` is `np.linalg.pinv` on the 3 x 6
arm block. -/
structure Phys where
  fk : V6 → V3
  jacFull : V3 → V6 → Mat312
  pinv : Mat36 → Mat63

/-- `jac[:, 6:12]`: the arm block (columns 6 to 11) of the positional
jacobian. -/
def armCols (m : Mat312) : Mat36 :=
  Matrix.of fun r (c : Fin 6) => m r ⟨c.val + 6, by omega⟩

namespace LiftCubeEnv

/-- `ERROR_TOLERANCE = 1e-2` in `LiftCubeEnv.inverse_kinematics`. -/
def ERROR_TOLERANCE : ℝ := 1e-2

/-- `MAX_ITERATIONS = 5` in `LiftCubeEnv.inverse_kinematics`. -/
def MAX_ITERATIONS : ℕ := 5

/-- The cartesian error recomputed in each iteration of the while loop of
`LiftCubeEnv.inverse_kinematics` (lines 181-186): after `mj_forward`,
`ee_pos = data.xpos[joint_id]` and `error = ee_target_pos - ee_pos`.
The `astype(np.float32)` rounding of `ee_pos` is modelled as exact. -/
def ikBodyError (p : Phys) (ee_target_pos : V3) (q : V6) : V3 :=
  fun i => ee_target_pos i - p.fk q i

/-- The joint-position update performed by one iteration of the while loop of
`LiftCubeEnv.inverse_kinematics` (lines 178-204), as a function of the current
arm joint positions `q = data.qpos[7:13]`:

* `jac` is filled by `mujoco.mj_jac` at the point `ee_target_pos`;
* `jac_reg = jac[:, 6:12].T @ jac[:, 6:12] + regularization * np.eye(nb_dof)`;
* `jac_pinv = np.linalg.inv(jac_reg) @ jac[:, 6:12].T`;
* `qdot = jac_pinv @ error`;
* `qdot += (np.eye(nb_dof) - np.linalg.pinv(jac[:, 6:12]) @ jac[:, 6:12]) @
  (Kn * (home_position - q_pos))` where `Kn = np.ones(nb_dof) *
  nullspace_weight` and `q_pos` is the copy of `data.qpos[7:13]` taken before
  the loop;
* `if qdot_norm > 1.0: qdot /= qdot_norm`;
* `data.qpos[7:13] += qdot * step`. -/
def ikBodyQ (p : Phys) (ee_target_pos : V3) (step regularization nullspace_weight : ℝ)
    (home_position q_pos q : V6) : V6 :=
  let jac := p.jacFull ee_target_pos q
  let error := ikBodyError p ee_target_pos q
  let jac_reg : Mat66 :=
    (armCols jac).transpose * armCols jac + regularization • (1 : Mat66)
  let jac_pinv : Mat63 := jac_reg⁻¹ * (armCols jac).transpose
  let Kn : V6 := fun _ => nullspace_weight
  let qdot : V6 :=
    jac_pinv.mulVec error
      + ((1 : Mat66) - p.pinv (armCols jac) * armCols jac).mulVec
          (fun i => Kn i * (home_position i - q_pos i))
  let qdot_norm := enorm6 qdot
  let qdot2 := if qdot_norm > 1 then qdot_norm⁻¹ • qdot else qdot
  q + step • qdot2

/-- The while loop of `LiftCubeEnv.inverse_kinematics` (lines 178-205), with
the remaining iteration budget `MAX_ITERATIONS - i` as fuel.  The loop state is
the pair of `data.qpos[7:13]` and the `error` variable; the returned natural
number counts the iterations that were executed. -/
def ikLoop (p : Phys) (ee_target_pos : V3) (step regularization nullspace_weight : ℝ)
    (home_position q_pos : V6) : ℕ → V6 → V3 → V6 × V3 × ℕ
  | 0, q, error => (q, error, 0)
  | fuel + 1, q, error =>
    if enorm3 error > ERROR_TOLERANCE then
      let error2 := ikBodyError p ee_target_pos q
      let q2 := ikBodyQ p ee_target_pos step regularization nullspace_weight
        home_position q_pos q
      let rest := ikLoop p ee_target_pos step regularization nullspace_weight
        home_position q_pos fuel q2 error2
      (rest.1, rest.2.1, rest.2.2 + 1)
    else
      (q, error, 0)

/-- The whole iteration of `LiftCubeEnv.inverse_kinematics` starting from the
joint positions `entry = data.qpos[7:13]` at the call: the initial `error` is
computed from the entry value of `data.xpos[joint_id]` (the data is consistent
at entry, so this equals `fk entry`), and the saved copy `q_pos` equals
`entry`. -/
def ikRun (p : Phys) (ee_target_pos : V3) (step regularization nullspace_weight : ℝ)
    (home_position entry : V6) : V6 × V3 × ℕ :=
  let q_pos := entry
  let error : V3 := fun i => ee_target_pos i - p.fk entry i
  ikLoop p ee_target_pos step regularization nullspace_weight home_position q_pos
    MAX_ITERATIONS entry error

/-- Number of iterations executed by the while loop of
`LiftCubeEnv.inverse_kinematics`. -/
def ikIterations (p : Phys) (ee_target_pos : V3)
    (step regularization nullspace_weight : ℝ) (home_position entry : V6) : ℕ :=
  (ikRun p ee_target_pos step regularization nullspace_weight home_position entry).2.2

/-- Value of the `error` variable when the while loop of
`LiftCubeEnv.inverse_kinematics` exits. -/
def ikFinalError (p : Phys) (ee_target_pos : V3)
    (step regularization nullspace_weight : ℝ) (home_position entry : V6) : V3 :=
  (ikRun p ee_target_pos step regularization nullspace_weight home_position entry).2.1

/-- `LiftCubeEnv.inverse_kinematics` (lift_cube_env.py lines 146-213).  The
first component is the returned `q_target_pos = data.qpos[7:13].copy()` taken
after the loop; the second component is the value of `data.qpos[7:13]` after
the restoring write `self.data.qpos[7:13] = q_pos` executed just before the
return.  A `home_position` of `None` is passed here as the zero vector. -/
def inverse_kinematics (p : Phys) (ee_target_pos : V3)
    (step regularization nullspace_weight : ℝ) (home_position entry : V6) :
    V6 × V6 :=
  let q_pos := entry
  let run := ikRun p ee_target_pos step regularization nullspace_weight
    home_position entry
  let q_target_pos := run.1
  (q_target_pos, q_pos)

/-- Modelled from the claim text of C3 (not from the source): the
joint-velocity update written as the damped jacobian pseudoinverse applied to
the cartesian error, `qdot = (J^T J + regularization * I_6)⁻¹ J^T
(ee_target_pos - ee_pos)`, plus the nullspace term `(I_6 - pinv(J) J)
(nullspace_weight * (home_position - q_pos))`, where `J` is the 3 x 6 arm
block (columns 6 to 11) of the positional jacobian; `qdot` is rescaled to unit
norm if its norm exceeds 1, and the joint positions are advanced by
`qdot * step`. -/
def ikSpecUpdate (p : Phys) (ee_target_pos : V3)
    (step regularization nullspace_weight : ℝ) (home_position q_pos q : V6) : V6 :=
  let J : Mat36 := armCols (p.jacFull ee_target_pos q)
  let e : V3 := fun i => ee_target_pos i - p.fk q i
  let qdot : V6 :=
    (J.transpose * J + regularization • (1 : Mat66))⁻¹.mulVec (J.transpose.mulVec e)
      + ((1 : Mat66) - p.pinv J * J).mulVec (nullspace_weight • (home_position - q_pos))
  let qdotR := if enorm6 qdot > 1 then (enorm6 qdot)⁻¹ • qdot else qdot
  q + step • qdotR

end LiftCubeEnv

/-- Values stored in the observation dictionaries returned by
`get_observation`: float arrays of shape `(3,)`, `(6,)` and `(1,)`, and
rendered camera images (modelled as opaque handles). -/
inductive ObsVal where
  | v3 (v : V3)
  | v6 (v : V6)
  | v1 (x : ℝ)
  | img (n : ℕ)

/-- Values stored in the `info` dictionary of `LiftCubeEnv`. -/
inductive InfoVal where
  | nat (n : ℕ)
  | bool (b : Bool)
  | real (r : ℝ)

/-- Python exceptions raised by `apply_action`. -/
inductive PyError where
  | notImplementedError
  | valueError

namespace ReachCubeEnv

/-- The quantities `ReachCubeEnv.step`, `get_observation` and the reward
computation read from the mujoco data after `apply_action` has stepped the
simulation.  `xpos2` is `data.xpos[2]` (the cube body) and `xpos8` is
`data.xpos[8]` (the end-effector body); `cubeQpos` is `data.qpos[:3]`. -/
structure View where
  armQpos : V6
  armQvel : V6
  cubeQpos : V3
  xpos2 : V3
  xpos8 : V3
  imageFront : ℕ
  imageTop : ℕ

/-- `ReachCubeEnv.get_observation` (reach_cube_env.py lines 150-164), as the
association list underlying the returned dict, in insertion order. -/
def get_observation (observation_mode : String) (v : View) :
    List (String × ObsVal) :=
  [("arm_qpos", ObsVal.v6 v.armQpos), ("arm_qvel", ObsVal.v6 v.armQvel)]
    ++ (if observation_mode ∈ (["image", "both"] : List String) then
          [("image_front", ObsVal.img v.imageFront),
           ("image_top", ObsVal.img v.imageTop)]
        else [])
    ++ (if observation_mode ∈ (["state", "both"] : List String) then
          [("cube_pos", ObsVal.v3 v.cubeQpos)]
        else [])

/-- The keys of the `observation_space` dict declared in
`ReachCubeEnv.__init__` (reach_cube_env.py lines 88-99), in insertion
order. -/
def observationSpaceKeys (observation_mode : String) : List String :=
  ["arm_qpos", "arm_qvel"]
    ++ (if observation_mode ∈ (["image", "both"] : List String) then
          ["image_front", "image_top"]
        else [])
    ++ (if observation_mode ∈ (["state", "both"] : List String) then
          ["cube_pos"]
        else [])

/-- `action_shape = {"joint": 6, "ee": 4}[action_mode]` in
`ReachCubeEnv.__init__` (line 84); the dict lookup raises `KeyError` for any
other mode, modelled by `none`. -/
def actionShape (action_mode : String) : Option ℕ :=
  if action_mode = "joint" then some 6
  else if action_mode = "ee" then some 4
  else none

/-- `target_low` of `ReachCubeEnv.apply_action` (line 136). -/
def target_low : V6 := ![-3.14159, -1.5708, -1.48353, -1.91986, -2.96706, -1.74533]

/-- `target_high` of `ReachCubeEnv.apply_action` (line 137). -/
def target_high : V6 := ![3.14159, 1.22173, 1.74533, 1.91986, 2.96706, 0.0523599]

/-- `ReachCubeEnv.apply_action` (reach_cube_env.py lines 116-148).  In `ee`
mode the method raises `NotImplementedError` on its first statement, before
touching `data`; in `joint` mode it computes `target_qpos`, writes it to
`data.ctrl` and calls `mujoco.mj_step`; any other mode raises `ValueError`.
The success value is the `target_qpos` written to `data.ctrl` (the subsequent
`mj_step` is a third-party call); an error value means the simulation state
was not modified. -/
def apply_action (action_mode : String) (action : V6) : Except PyError V6 :=
  if action_mode = "ee" then
    Except.error PyError.notImplementedError
  else if action_mode = "joint" then
    Except.ok (fun i =>
      action i * (target_high i - target_low i) / 2 + (target_high i + target_low i) / 2)
  else
    Except.error PyError.valueError

/-- `ReachCubeEnv.reset` (reach_cube_env.py lines 166-179): after writing the
sampled cube pose and the zero robot pose into `qpos` and calling
`mj_forward`, it returns the pair of `get_observation()` (at the post-reset
view `v`) and the empty info dict `\x7b\x7d`. -/
def reset (observation_mode : String) (v : View) :
    List (String × ObsVal) × List (String × InfoVal) :=
  (get_observation observation_mode v, [])

/-- `ReachCubeEnv.step` (reach_cube_env.py lines 181-195), as a function of
the post-`apply_action` view `v`: returns the 5-tuple
`(observation, reward, False, False, \x7b\x7d)` with
`reward = -np.linalg.norm(ee_pos - cube_pos)`,
`cube_pos = data.xpos[2]`, `ee_pos = data.xpos[8]`. -/
def step (observation_mode : String) (v : View) :
    List (String × ObsVal) × ℝ × Bool × Bool × List (String × InfoVal) :=
  let observation := get_observation observation_mode v
  let cube_pos := v.xpos2
  let ee_pos := v.xpos8
  let ee_to_cube := enorm3 (fun i => ee_pos i - cube_pos i)
  let reward := -ee_to_cube
  (observation, reward, false, false, [])

end ReachCubeEnv

namespace LiftCubeEnv

/-- `self.threshold_height = 0.5` (lift_cube_env.py line 135). -/
def threshold_height : ℝ := 0.5

/-- `self.episode_length = 200` (lift_cube_env.py line 136). -/
def episode_length : ℕ := 200

/-- `self.control_freq = 50` (lift_cube_env.py line 123). -/
def control_freq : ℕ := 50

/-- The `self.info` dict of `LiftCubeEnv`, which always holds exactly the keys
`step`, `is_success` and `timestamp` (lift_cube_env.py lines 117-121). -/
structure Info where
  step : ℕ
  is_success : Bool
  timestamp : ℝ

/-- The mutable bookkeeping attributes of a `LiftCubeEnv` instance that
`reset` and `step` read and write. -/
structure EnvState where
  step_idx : ℕ
  done : Bool
  timeout : Bool
  info : Info

/-- The quantities `LiftCubeEnv.step` and `get_observation` read from the
mujoco data after `apply_action` has stepped the simulation: `cubeQpos` is
`data.qpos[:3]`, `eeXpos` is `data.xpos[ee_id]` for the body `moving_side`,
`gripperQpos` is `data.qpos[12]`, and the two camera renders are opaque
handles. -/
structure View where
  cubeQpos : V3
  eeXpos : V3
  gripperQpos : ℝ
  imageFront : ℕ
  imageTop : ℕ

/-- Serialisation of `self.info` as the association list underlying the dict,
in insertion order. -/
def infoDict (i : Info) : List (String × InfoVal) :=
  [("step", InfoVal.nat i.step), ("is_success", InfoVal.bool i.is_success),
   ("timestamp", InfoVal.real i.timestamp)]

/-- `LiftCubeEnv.get_observation` (lift_cube_env.py lines 247-264), as the
association list underlying the returned dict, in insertion order. -/
def get_observation (observation_mode : String) (v : View) :
    List (String × ObsVal) :=
  [("ee_pos", ObsVal.v3 v.eeXpos), ("gripper_qpos", ObsVal.v1 v.gripperQpos)]
    ++ (if observation_mode ∈ (["image", "both"] : List String) then
          [("image_front", ObsVal.img v.imageFront),
           ("image_top", ObsVal.img v.imageTop)]
        else [])
    ++ (if observation_mode ∈ (["state", "both"] : List String) then
          [("object_qpos", ObsVal.v3 v.cubeQpos)]
        else [])

/-- The keys of the `observation_space` dict declared in
`LiftCubeEnv.__init__` (lift_cube_env.py lines 100-113), in insertion
order. -/
def observationSpaceKeys (observation_mode : String) : List String :=
  ["ee_pos", "gripper_qpos"]
    ++ (if observation_mode ∈ (["image", "both"] : List String) then
          ["image_front", "image_top"]
        else [])
    ++ (if observation_mode ∈ (["state", "both"] : List String) then
          ["object_qpos"]
        else [])

/-- The effect of `LiftCubeEnv.reset` (lines 276-278) on the bookkeeping
attributes: `done`, `timeout` and `step_idx` are cleared; `self.info` is not
touched by `reset`. -/
def resetState (s : EnvState) : EnvState :=
  { step_idx := 0, done := false, timeout := false, info := s.info }

/-- `LiftCubeEnv.reset` (lift_cube_env.py lines 266-283): after writing the
sampled cube pose and the zero robot pose into `qpos` and calling
`mj_forward`, it returns `get_observation()` (at the post-reset view `v`)
paired with the empty info dict, and clears the bookkeeping flags. -/
def reset (observation_mode : String) (v : View) (s : EnvState) :
    (List (String × ObsVal) × List (String × InfoVal)) × EnvState :=
  ((get_observation observation_mode v, []), resetState s)

/-- `LiftCubeEnv.step` (lift_cube_env.py lines 285-314), as a function of the
post-`apply_action` view `v` and the bookkeeping state `s`.  The first
component is the returned 5-tuple `(observation, reward, False, self.timeout,
self.info)`; the second component is the updated bookkeeping state. -/
def step (observation_mode : String) (v : View) (s : EnvState) :
    (List (String × ObsVal) × ℝ × Bool × Bool × List (String × InfoVal))
      × EnvState :=
  let observation := get_observation observation_mode v
  let cube_pos := v.cubeQpos
  let cube_z := cube_pos 2
  let ee_pos := v.eeXpos
  let ee_to_cube := enorm3 (fun i => ee_pos i - cube_pos i)
  let reward_height := cube_z - threshold_height
  let reward_distance := -ee_to_cube
  let reward := reward_height + reward_distance
  let is_success : Bool := if ee_to_cube < 0.05 then true else false
  let done := if ee_to_cube < 0.05 then true else s.done
  let step_idx := s.step_idx + 1
  let info : Info :=
    { step := step_idx, is_success := is_success,
      timestamp := (step_idx : ℝ) / (control_freq : ℝ) }
  let timeout := if episode_length ≤ step_idx then true else s.timeout
  ((observation, reward, false, timeout, infoDict info),
   { step_idx := step_idx, done := done, timeout := timeout, info := info })

end LiftCubeEnv

/-- The update of the replay index at the end of each loop iteration of
`do_replay_hdf5` (trace_hdf5_mujoco.py lines 41-42): `step += 1` followed by
`step = step % len(group_qpos)`. -/
def replayAdvance (group_qpos_len step : ℕ) : ℕ :=
  (step + 1) % group_qpos_len

/-- The value of the replay index `step` of `do_replay_hdf5` at the start of
the `n`-th loop iteration: `step = 0` before the loop (line 26), and each
iteration ends with `replayAdvance`. -/
def replayStepAt (group_qpos_len : ℕ) : ℕ → ℕ
  | 0 => 0
  | n + 1 => replayAdvance group_qpos_len (replayStepAt group_qpos_len n)

/-- The map sending a coordinate function to the corresponding point of the
euclidean metric space on `Fin 3 → ℝ`. -/
def toEuc (v : V3) : EuclideanSpace ℝ (Fin 3) := v

/-- The zero 3-vector, used as a concrete test input. -/
def v3zero : V3 := fun _ => 0

/-- The zero 6-vector, used as a concrete test input. -/
def v6zero : V6 := fun _ => 0

/-- A concrete, internally consistent physics oracle for which the
end-effector never moves: forward kinematics is constant at the origin, hence
its positional jacobian is identically zero.  The pseudoinverse of the zero
matrix is the zero matrix, as `np.linalg.pinv` computes. -/
def frozenPhys : Phys where
  fk := fun _ => fun _ => 0
  jacFull := fun _ _ => 0
  pinv := fun _ => 0

/-- A concrete target outside the reachable set of `frozenPhys`. -/
def farTarget : V3 := fun _ => 1

/-- A concrete `ReachCubeEnv` view, used as a test input. -/
def rv0 : ReachCubeEnv.View :=
  { armQpos := v6zero, armQvel := v6zero, cubeQpos := v3zero,
    xpos2 := v3zero, xpos8 := v3zero, imageFront := 0, imageTop := 0 }

/-- A concrete `LiftCubeEnv` view, used as a test input. -/
def lv0 : LiftCubeEnv.View :=
  { cubeQpos := v3zero, eeXpos := v3zero, gripperQpos := 0,
    imageFront := 0, imageTop := 0 }

/-- A concrete `LiftCubeEnv` bookkeeping state as produced by `reset`, used as
a test input. -/
def ls0 : LiftCubeEnv.EnvState :=
  { step_idx := 0, done := false, timeout := false,
    info := { step := 0, is_success := false, timestamp := 0 } }

namespace LiftCubeEnv

/-- Unfolding equation for one iteration of the while loop. -/
theorem ikLoop_succ (p : Phys) (ee_target_pos : V3)
    (stp reg nw : ℝ) (home q_pos : V6) (fuel : ℕ) (q : V6) (error : V3) :
    ikLoop p ee_target_pos stp reg nw home q_pos (fuel + 1) q error =
      if enorm3 error > ERROR_TOLERANCE then
        (let rest := ikLoop p ee_target_pos stp reg nw home q_pos fuel
            (ikBodyQ p ee_target_pos stp reg nw home q_pos q)
            (ikBodyError p ee_target_pos q)
         (rest.1, rest.2.1, rest.2.2 + 1))
      else (q, error, 0) := rfl

/-- The loop executes at most `fuel` iterations. -/
theorem ikLoop_count_le (p : Phys) (ee_target_pos : V3)
    (stp reg nw : ℝ) (home q_pos : V6) :
    ∀ (fuel : ℕ) (q : V6) (error : V3),
      (ikLoop p ee_target_pos stp reg nw home q_pos fuel q error).2.2 ≤ fuel := by
  intro fuel
  induction fuel with
  | zero => intro q error; exact Nat.le_refl 0
  | succ n ih =>
    intro q error
    rw [ikLoop_succ]
    by_cases hc : enorm3 error > ERROR_TOLERANCE
    · rw [if_pos hc]
      exact Nat.succ_le_succ (ih _ _)
    · rw [if_neg hc]
      exact Nat.zero_le _

/-- If the loop stopped before exhausting its fuel, the stored error passed
the tolerance test. -/
theorem ikLoop_early (p : Phys) (ee_target_pos : V3)
    (stp reg nw : ℝ) (home q_pos : V6) :
    ∀ (fuel : ℕ) (q : V6) (error : V3),
      (ikLoop p ee_target_pos stp reg nw home q_pos fuel q error).2.2 < fuel →
      enorm3 (ikLoop p ee_target_pos stp reg nw home q_pos fuel q error).2.1
        ≤ ERROR_TOLERANCE := by
  intro fuel
  induction fuel with
  | zero => intro q error h; exact absurd h (Nat.not_lt_zero _)
  | succ n ih =>
    intro q error h
    by_cases hc : enorm3 error > ERROR_TOLERANCE
    · rw [ikLoop_succ, if_pos hc] at h ⊢
      exact ih _ _ (Nat.lt_of_succ_lt_succ h)
    · rw [ikLoop_succ, if_neg hc]
      exact not_lt.mp hc

end LiftCubeEnv

/-- The initial error of the frozen oracle at the zero target is the zero
vector. -/
theorem frozen_err_zero :
    (fun i => v3zero i - frozenPhys.fk v6zero i) = v3zero := by
  funext i
  simp [v3zero, frozenPhys]

/-- The euclidean norm of the zero 3-vector. -/
theorem enorm3_v3zero : enorm3 v3zero = 0 := by
  simp [enorm3, v3zero]

/-- C1 counterexample: the claim that for every target end-effector position
the joint configuration returned by `LiftCubeEnv.inverse_kinematics` places
the end-effector within the error tolerance `1e-2` of the target is false.
At the concrete input below (the `frozenPhys` oracle, whose end-effector is
fixed at the origin and whose jacobian is consistently zero, the target
`(1, 1, 1)`, zero entry joint positions, and the default parameters
`step = 0.2`, `regularization = 1e-6`, `nullspace_weight = 1`,
`home_position = 0`) the routine returns after `MAX_ITERATIONS = 5`
iterations a configuration whose forward kinematics is at euclidean distance
`√3 > 1e-2` from the target. -/
theorem ik_tolerance_counterexample :
    enorm3 (fun i => farTarget i -
        frozenPhys.fk
          ((LiftCubeEnv.inverse_kinematics frozenPhys farTarget 0.2 1e-6 1
              v6zero v6zero).1) i)
      > LiftCubeEnv.ERROR_TOLERANCE := by
  have h : (fun i => farTarget i -
      frozenPhys.fk
        ((LiftCubeEnv.inverse_kinematics frozenPhys farTarget 0.2 1e-6 1
            v6zero v6zero).1) i) = farTarget := by
    funext i
    simp [farTarget, frozenPhys]
  rw [h]
  have h2 : enorm3 farTarget = Real.sqrt 3 := by
    rw [enorm3]
    norm_num [farTarget, Fin.sum_univ_three]
  rw [h2]
  show LiftCubeEnv.ERROR_TOLERANCE < Real.sqrt 3
  rw [show LiftCubeEnv.ERROR_TOLERANCE = (1e-2 : ℝ) from rfl,
    Real.lt_sqrt (by norm_num)]
  norm_num

/-- C1 (amended): `LiftCubeEnv.inverse_kinematics` guarantees the `1e-2`
tolerance on the returned configuration only when the entry configuration
already satisfies it: if the initial cartesian error is within
`ERROR_TOLERANCE`, the loop does not run, the entry joint positions are
returned, and their forward kinematics is within the tolerance of
`ee_target_pos`.  (When the loop does run, its 5-iteration cap gives no
tolerance guarantee, and even on an early exit the last error was measured
one update before the returned configuration.) -/
theorem ik_within_tolerance_if_initially_within (p : Phys) (ee_target_pos : V3)
    (stp reg nw : ℝ) (home entry : V6)
    (h : enorm3 (fun i => ee_target_pos i - p.fk entry i)
      ≤ LiftCubeEnv.ERROR_TOLERANCE) :
    (LiftCubeEnv.inverse_kinematics p ee_target_pos stp reg nw home entry).1 = entry
    ∧ enorm3 (fun i => ee_target_pos i -
        p.fk ((LiftCubeEnv.inverse_kinematics p ee_target_pos stp reg nw home
          entry).1) i)
      ≤ LiftCubeEnv.ERROR_TOLERANCE := by
  have h1 : (LiftCubeEnv.inverse_kinematics p ee_target_pos stp reg nw home
      entry).1 = entry := by
    show (LiftCubeEnv.ikLoop p ee_target_pos stp reg nw home entry
      LiftCubeEnv.MAX_ITERATIONS entry
      (fun i => ee_target_pos i - p.fk entry i)).1 = entry
    rw [show LiftCubeEnv.MAX_ITERATIONS = 4 + 1 from rfl, LiftCubeEnv.ikLoop_succ,
      if_neg (not_lt.mpr h)]
  refine ⟨h1, ?_⟩
  rw [h1]
  exact h

/-- Witness for the amended C1, at the frozen oracle with the target equal to
the entry end-effector position. -/
theorem ik_within_tolerance_if_initially_within_witness :
    (LiftCubeEnv.inverse_kinematics frozenPhys v3zero 0.2 1e-6 1
        v6zero v6zero).1 = v6zero
    ∧ enorm3 (fun i => v3zero i -
        frozenPhys.fk ((LiftCubeEnv.inverse_kinematics frozenPhys v3zero 0.2
          1e-6 1 v6zero v6zero).1) i)
      ≤ LiftCubeEnv.ERROR_TOLERANCE :=
  ik_within_tolerance_if_initially_within frozenPhys v3zero 0.2 1e-6 1 v6zero
    v6zero (by
      rw [frozen_err_zero, enorm3_v3zero,
        show LiftCubeEnv.ERROR_TOLERANCE = (1e-2 : ℝ) from rfl]
      norm_num)

/-- C2: for every oracle, target and parameter setting,
`LiftCubeEnv.inverse_kinematics` terminates: its while loop executes at most
`MAX_ITERATIONS = 5` iterations, and it exits earlier only when the euclidean
norm of the cartesian error has dropped to `ERROR_TOLERANCE = 1e-2` or
below. -/
theorem ik_iteration_bound (p : Phys) (ee_target_pos : V3)
    (stp reg nw : ℝ) (home entry : V6) :
    LiftCubeEnv.ikIterations p ee_target_pos stp reg nw home entry ≤ 5
    ∧ (LiftCubeEnv.ikIterations p ee_target_pos stp reg nw home entry < 5 →
        enorm3 (LiftCubeEnv.ikFinalError p ee_target_pos stp reg nw home entry)
          ≤ (1e-2 : ℝ)) := by
  constructor
  · exact LiftCubeEnv.ikLoop_count_le p ee_target_pos stp reg nw home entry
      LiftCubeEnv.MAX_ITERATIONS entry (fun i => ee_target_pos i - p.fk entry i)
  · intro hlt
    exact LiftCubeEnv.ikLoop_early p ee_target_pos stp reg nw home entry
      LiftCubeEnv.MAX_ITERATIONS entry (fun i => ee_target_pos i - p.fk entry i)
      hlt

/-- Witness for C2 at a concrete input on which the loop exits early (before
the first iteration). -/
theorem ik_iteration_bound_witness :
    enorm3 (LiftCubeEnv.ikFinalError frozenPhys v3zero 0.2 1e-6 1 v6zero v6zero)
      ≤ (1e-2 : ℝ) :=
  (ik_iteration_bound frozenPhys v3zero 0.2 1e-6 1 v6zero v6zero).2 (by
    show (LiftCubeEnv.ikLoop frozenPhys v3zero 0.2 1e-6 1 v6zero v6zero
      LiftCubeEnv.MAX_ITERATIONS v6zero
      (fun i => v3zero i - frozenPhys.fk v6zero i)).2.2 < 5
    rw [show LiftCubeEnv.MAX_ITERATIONS = 4 + 1 from rfl, LiftCubeEnv.ikLoop_succ,
      if_neg (by
        rw [frozen_err_zero, enorm3_v3zero,
          show LiftCubeEnv.ERROR_TOLERANCE = (1e-2 : ℝ) from rfl]
        norm_num)]
    exact Nat.zero_lt_succ 4)

/-- C3: in every iteration of the while loop of
`LiftCubeEnv.inverse_kinematics` the joint update is the damped jacobian
pseudoinverse applied to the cartesian error,
`qdot = (J^T J + regularization * I_6)⁻¹ J^T (ee_target_pos - ee_pos)`, plus
the nullspace term
`(I_6 - pinv(J) J) (nullspace_weight * (home_position - q_pos))`, where `J`
is the 3 x 6 arm block (columns 6 to 11) of the positional jacobian; `qdot`
is rescaled to unit norm when its norm exceeds 1, and the joint positions
are advanced by `qdot * step`. -/
theorem ik_update_formula (p : Phys) (ee_target_pos : V3)
    (stp reg nw : ℝ) (home q_pos q : V6) :
    LiftCubeEnv.ikBodyQ p ee_target_pos stp reg nw home q_pos q =
      LiftCubeEnv.ikSpecUpdate p ee_target_pos stp reg nw home q_pos q := by
  unfold LiftCubeEnv.ikBodyQ LiftCubeEnv.ikSpecUpdate LiftCubeEnv.ikBodyError
  have hv : (nw • (home - q_pos) : V6) = fun i => nw * (home i - q_pos i) := by
    funext i
    simp [Pi.smul_apply, Pi.sub_apply, smul_eq_mul]
  rw [hv]
  simp only [Matrix.mulVec_mulVec]

/-- C9: `LiftCubeEnv.inverse_kinematics` leaves the arm joint positions
`data.qpos[7:13]` unchanged: after the call they equal their entry value, and
the configuration computed by the iteration is only returned, not written to
the simulation state. -/
theorem ik_restores_qpos (p : Phys) (ee_target_pos : V3)
    (stp reg nw : ℝ) (home entry : V6) :
    (LiftCubeEnv.inverse_kinematics p ee_target_pos stp reg nw home entry).2
        = entry
    ∧ (LiftCubeEnv.inverse_kinematics p ee_target_pos stp reg nw home entry).1
        = (LiftCubeEnv.ikRun p ee_target_pos stp reg nw home entry).1 :=
  ⟨rfl, rfl⟩

/-- The code form of the euclidean distance, `np.linalg.norm(a - b)`, equals
the distance of the euclidean metric space on `Fin 3 → ℝ`. -/
theorem enorm3_sub_eq_dist (a b : V3) :
    enorm3 (fun i => a i - b i) = dist (toEuc a) (toEuc b) := by
  rw [EuclideanSpace.dist_eq, enorm3]
  congr 1
  refine Finset.sum_congr rfl fun i _ => ?_
  rw [Real.dist_eq, sq_abs]
  rfl

/-- C4: `ReachCubeEnv.step` returns the reward
`-‖ee_pos - cube_pos‖` (negative euclidean distance between the end-effector
and the cube), and `LiftCubeEnv.step` returns the reward
`(cube_z - 0.5) + (-‖ee_pos - cube_pos‖)` (height of the cube above the
threshold `0.5` plus the negative euclidean distance between the end-effector
and the cube). -/
theorem step_reward_shaping (observation_mode : String)
    (rv : ReachCubeEnv.View) (lv : LiftCubeEnv.View) (s : LiftCubeEnv.EnvState) :
    (ReachCubeEnv.step observation_mode rv).2.1 =
      -(dist (toEuc rv.xpos8) (toEuc rv.xpos2))
    ∧ (LiftCubeEnv.step observation_mode lv s).1.2.1 =
      (lv.cubeQpos 2 - (0.5 : ℝ)) + -(dist (toEuc lv.eeXpos) (toEuc lv.cubeQpos)) := by
  constructor
  · show -(enorm3 (fun i => rv.xpos8 i - rv.xpos2 i)) = _
    rw [enorm3_sub_eq_dist]
  · show (lv.cubeQpos 2 - LiftCubeEnv.threshold_height)
        + -(enorm3 (fun i => lv.eeXpos i - lv.cubeQpos i)) = _
    rw [enorm3_sub_eq_dist,
      show LiftCubeEnv.threshold_height = (0.5 : ℝ) from rfl]

/-- C5: for every action outcome and every reachable bookkeeping state
(characterised by the invariant that the `timeout` flag holds exactly when
`step_idx` has reached `episode_length`, which `reset` establishes and `step`
preserves), `LiftCubeEnv.step` returns `terminated = False` as the third
element of its 5-tuple — including when the success condition (end-effector
within `0.05` of the cube) holds, in which case only the internal `done` flag
and `info["is_success"]` are set to `True` — and returns `truncated = True`
exactly when the incremented step counter has reached
`episode_length = 200`. -/
theorem lift_step_flags (observation_mode : String) (v : LiftCubeEnv.View)
    (s : LiftCubeEnv.EnvState)
    (hinv : s.timeout = true ↔ LiftCubeEnv.episode_length ≤ s.step_idx) :
    (LiftCubeEnv.step observation_mode v s).1.2.2.1 = false
    ∧ ((LiftCubeEnv.step observation_mode v s).1.2.2.2.1 = true ↔
        LiftCubeEnv.episode_length ≤ s.step_idx + 1)
    ∧ (enorm3 (fun i => v.eeXpos i - v.cubeQpos i) < 0.05 →
        (LiftCubeEnv.step observation_mode v s).1.2.2.1 = false
        ∧ (LiftCubeEnv.step observation_mode v s).2.done = true
        ∧ ("is_success", InfoVal.bool true)
            ∈ (LiftCubeEnv.step observation_mode v s).1.2.2.2.2)
    ∧ ((LiftCubeEnv.resetState s).timeout = true ↔
        LiftCubeEnv.episode_length ≤ (LiftCubeEnv.resetState s).step_idx)
    ∧ ((LiftCubeEnv.step observation_mode v s).2.timeout = true ↔
        LiftCubeEnv.episode_length ≤ (LiftCubeEnv.step observation_mode v s).2.step_idx) := by
  have htrunc :
      ((if LiftCubeEnv.episode_length ≤ s.step_idx + 1 then true else s.timeout) = true)
        ↔ LiftCubeEnv.episode_length ≤ s.step_idx + 1 := by
    by_cases ht : LiftCubeEnv.episode_length ≤ s.step_idx + 1
    · rw [if_pos ht]
      simp [ht]
    · rw [if_neg ht, hinv]
      omega
  refine ⟨rfl, htrunc, ?_, ?_, htrunc⟩
  · intro hsucc
    refine ⟨rfl, ?_, ?_⟩
    · show (if enorm3 (fun i => v.eeXpos i - v.cubeQpos i) < 0.05
          then true else s.done) = true
      rw [if_pos hsucc]
    · show ("is_success", InfoVal.bool true) ∈
        LiftCubeEnv.infoDict
          { step := s.step_idx + 1,
            is_success := if enorm3 (fun i => v.eeXpos i - v.cubeQpos i) < 0.05
              then true else false,
            timestamp := ((s.step_idx + 1 : ℕ) : ℝ) / (LiftCubeEnv.control_freq : ℝ) }
      rw [if_pos hsucc]
      exact List.mem_cons_of_mem _ (List.mem_cons_self _ _)
  · show (false = true) ↔ LiftCubeEnv.episode_length ≤ 0
    constructor
    · intro hf
      exact absurd hf (by simp)
    · intro hle
      exact absurd hle (by rw [show LiftCubeEnv.episode_length = 200 from rfl]; omega)

/-- Witness for C5 at a concrete freshly reset state. -/
theorem lift_step_flags_witness :
    (LiftCubeEnv.step ("image") lv0 ls0).1.2.2.1 = false
    ∧ ((LiftCubeEnv.step ("image") lv0 ls0).1.2.2.2.1 = true ↔
        LiftCubeEnv.episode_length ≤ ls0.step_idx + 1) :=
  ⟨(lift_step_flags ("image") lv0 ls0 (by
      constructor
      · intro hf
        exact absurd hf (by simp [ls0])
      · intro hle
        exact absurd hle (by
          rw [show LiftCubeEnv.episode_length = 200 from rfl,
            show ls0.step_idx = 0 from rfl]
          omega))).1,
   (lift_step_flags ("image") lv0 ls0 (by
      constructor
      · intro hf
        exact absurd hf (by simp [ls0])
      · intro hle
        exact absurd hle (by
          rw [show LiftCubeEnv.episode_length = 200 from rfl,
            show ls0.step_idx = 0 from rfl]
          omega))).2.1⟩

/-- C6: for every observation mode among `image`, `state` and `both`, the
dict returned by `get_observation` has exactly the keys of the
`observation_space` declared in `__init__` for that mode, for both
`ReachCubeEnv` and `LiftCubeEnv`: the image keys are present exactly when the
mode is `image` or `both`, the cube-state key (`cube_pos` for `ReachCubeEnv`,
`object_qpos` for `LiftCubeEnv`) exactly when the mode is `state` or `both`,
and the base keys are always present. -/
theorem observation_keys_match_space (observation_mode : String)
    (hmode : observation_mode = "image" ∨ observation_mode = "state"
      ∨ observation_mode = "both")
    (rv : ReachCubeEnv.View) (lv : LiftCubeEnv.View) :
    (ReachCubeEnv.get_observation observation_mode rv).map Prod.fst
        = ReachCubeEnv.observationSpaceKeys observation_mode
    ∧ (LiftCubeEnv.get_observation observation_mode lv).map Prod.fst
        = LiftCubeEnv.observationSpaceKeys observation_mode
    ∧ (("image_front" ∈ (ReachCubeEnv.get_observation observation_mode rv).map Prod.fst
        ∧ "image_top" ∈ (ReachCubeEnv.get_observation observation_mode rv).map Prod.fst
        ∧ "image_front" ∈ (LiftCubeEnv.get_observation observation_mode lv).map Prod.fst
        ∧ "image_top" ∈ (LiftCubeEnv.get_observation observation_mode lv).map Prod.fst)
      ↔ (observation_mode = "image" ∨ observation_mode = "both"))
    ∧ (("cube_pos" ∈ (ReachCubeEnv.get_observation observation_mode rv).map Prod.fst
        ∧ "object_qpos" ∈ (LiftCubeEnv.get_observation observation_mode lv).map Prod.fst)
      ↔ (observation_mode = "state" ∨ observation_mode = "both"))
    ∧ "arm_qpos" ∈ (ReachCubeEnv.get_observation observation_mode rv).map Prod.fst
    ∧ "arm_qvel" ∈ (ReachCubeEnv.get_observation observation_mode rv).map Prod.fst
    ∧ "ee_pos" ∈ (LiftCubeEnv.get_observation observation_mode lv).map Prod.fst
    ∧ "gripper_qpos" ∈ (LiftCubeEnv.get_observation observation_mode lv).map Prod.fst := by
  rcases hmode with h | h | h <;> subst h <;>
    refine ⟨?_, ?_, ?_, ?_, ?_, ?_, ?_, ?_⟩ <;>
    simp [ReachCubeEnv.get_observation, LiftCubeEnv.get_observation,
      ReachCubeEnv.observationSpaceKeys, LiftCubeEnv.observationSpaceKeys]

/-- Witness for C6 in the default `image` mode at concrete views. -/
theorem observation_keys_match_space_witness :
    (ReachCubeEnv.get_observation ("image") rv0).map Prod.fst
        = ReachCubeEnv.observationSpaceKeys ("image")
    ∧ (LiftCubeEnv.get_observation ("image") lv0).map Prod.fst
        = LiftCubeEnv.observationSpaceKeys ("image") :=
  ⟨(observation_keys_match_space ("image") (Or.inl rfl) rv0 lv0).1,
   (observation_keys_match_space ("image") (Or.inl rfl) rv0 lv0).2.1⟩

/-- C7: both environments expose the standard gymnasium interface shapes:
`reset` returns the pair of the observation dict and an info dict, and `step`
returns the 5-tuple of observation, reward, `terminated`, `truncated` and
info dict (`LiftCubeEnv.step` additionally updates the bookkeeping
attributes, modelled as the second component). -/
theorem gym_interface_shape (observation_mode : String)
    (rv : ReachCubeEnv.View) (lv : LiftCubeEnv.View) (s : LiftCubeEnv.EnvState) :
    ReachCubeEnv.reset observation_mode rv
        = (ReachCubeEnv.get_observation observation_mode rv, [])
    ∧ (∃ reward : ℝ, ReachCubeEnv.step observation_mode rv
        = (ReachCubeEnv.get_observation observation_mode rv, reward, false,
            false, []))
    ∧ LiftCubeEnv.reset observation_mode lv s
        = ((LiftCubeEnv.get_observation observation_mode lv, []),
            LiftCubeEnv.resetState s)
    ∧ (∃ (reward : ℝ) (truncated : Bool) (info : List (String × InfoVal))
          (s2 : LiftCubeEnv.EnvState),
        LiftCubeEnv.step observation_mode lv s
          = ((LiftCubeEnv.get_observation observation_mode lv, reward, false,
              truncated, info), s2)) :=
  ⟨rfl, ⟨_, rfl⟩, rfl, ⟨_, _, _, _, rfl⟩⟩

/-- C8: `ReachCubeEnv.apply_action` raises `NotImplementedError` in `ee` mode
on its first statement, before modifying any simulation state, even though
`ReachCubeEnv.__init__` accepts `action_mode = "ee"` and declares a
4-dimensional action space for it; for an action mode that is neither
`joint` nor `ee` it raises `ValueError`. -/
theorem reach_apply_action_errors (action : V6) (action_mode : String)
    (hm : action_mode ≠ "joint" ∧ action_mode ≠ "ee") :
    ReachCubeEnv.apply_action ("ee") action
        = Except.error PyError.notImplementedError
    ∧ ReachCubeEnv.actionShape ("ee") = some 4
    ∧ ReachCubeEnv.apply_action action_mode action
        = Except.error PyError.valueError := by
  refine ⟨rfl, rfl, ?_⟩
  unfold ReachCubeEnv.apply_action
  rw [if_neg hm.2, if_neg hm.1]

/-- Witness for C8 at the concrete invalid mode `x`. -/
theorem reach_apply_action_errors_witness :
    ReachCubeEnv.apply_action ("x") v6zero = Except.error PyError.valueError :=
  (reach_apply_action_errors v6zero ("x")
    ⟨by decide, by decide⟩).2.2

/-- C10: in `do_replay_hdf5` the step index is reduced modulo the length of
the recorded `qpos` trajectory at the end of every loop iteration, so
(provided the recording is non-empty) at the start of every iteration
`0 ≤ step < len(group_qpos)` holds, and the index cycles through the
recorded range: at the start of iteration `n` it equals `n % len`. -/
theorem replay_index_invariant (group_qpos_len n : ℕ) (h : 0 < group_qpos_len) :
    replayStepAt group_qpos_len n < group_qpos_len
    ∧ replayStepAt group_qpos_len n = n % group_qpos_len := by
  induction n with
  | zero => exact ⟨h, (Nat.zero_mod _).symm⟩
  | succ m ih =>
    constructor
    · exact Nat.mod_lt _ h
    · show replayAdvance group_qpos_len (replayStepAt group_qpos_len m)
        = (m + 1) % group_qpos_len
      rw [replayAdvance, ih.2, Nat.mod_add_mod]

/-- Witness for C10 at a concrete length and iteration count. -/
theorem replay_index_invariant_witness :
    replayStepAt 3 7 < 3 ∧ replayStepAt 3 7 = 7 % 3 :=
  replay_index_invariant 3 7 (by decide)
